import Mathlib

/-!
Verification of the failable-mutation layer of serious-django-graphene.

We shallowly embed the three behavioural cores of
serious_django_graphene/__init__.py:

* FailableMutation.mutate — the dispatch wrapper that runs a user body
  (do_mutate) and converts DjangoValidationError and allow-listed
  exception kinds into the uniform error result shape;
* fields_for_form — the form-to-argument deriver;
* FormMutation.mutate / FormMutation.get_form_kwargs — the form-backed
  mutation path.

Exceptions are modelled by a kind tag plus a message plus (for the
validation kind) the field-to-messages dictionary that Python iteration
over a DjangoValidationError yields.  A user body is a function from
Unit to an Except value; mutate returns the observable outcome paired
with the number of times the body was invoked, so that claims of the
form "the body is never invoked" are statable.  Attributes that may be
absent on a result object (success, error) are modelled with Option,
where none models the attribute being unset or None.
-/

namespace SeriousDjangoGraphene

/-- Kinds of Python exceptions relevant to the dispatch wrapper:
DjangoValidationError, the dedicated MutationExecutionException, and
arbitrary other exception classes identified by a numeric tag. -/
inductive ExcType where
  | djangoValidationError
  | mutationExecutionException
  | otherExc (tag : Nat)
deriving DecidableEq, Repr

/-- A raised Python exception: its class, its string representation
(str(e)), and, for the validation kind, the field-to-messages pairs
that iterating the DjangoValidationError yields. -/
structure Exc where
  ty : ExcType
  msg : String
  errorDict : List (String × List String) := []
deriving DecidableEq, Repr

/-- Embeds the graphene ObjectType ValidationError of the source:
a field name together with its error messages. -/
structure ValidationError where
  field : String
  messages : List String
deriving DecidableEq, Repr

/-- Embeds the MutationError union of the source: either a
ValidationErrors object (a list of per-field errors) or an
ExecutionError object (a message string). -/
inductive MutationError where
  | validationErrors (validation_errors : List ValidationError)
  | executionError (error_message : String)
deriving DecidableEq, Repr

/-- The observable error/success part of a mutation result object.
none for success models the success attribute being unset; none for
error models error being None/unset. -/
structure MutationResult where
  error : Option MutationError := none
  success : Option Bool := none
deriving DecidableEq, Repr

/-- What a call of a mutate classmethod does, as seen by the caller:
return a result object, let an exception propagate, or raise the
NotImplementedError configuration error. -/
inductive MutateOutcome where
  | returned (r : MutationResult)
  | raised (e : Exc)
  | notImplemented
deriving DecidableEq, Repr

/-- Embeds create_validation_error_output: one ValidationError per
(key, value) pair of the validation exception, in iteration order,
wrapped in the ValidationErrors variant. -/
def create_validation_error_output (e : Exc) : MutationError :=
  MutationError.validationErrors (e.errorDict.map fun kv => ⟨kv.1, kv.2⟩)

/-- Tests whether an outcome is a returned result whose error is the
ExecutionError variant. -/
def isExecutionErrorOutcome : MutateOutcome → Bool
  | MutateOutcome.returned r =>
    match r.error with
    | some (MutationError.executionError _) => true
    | _ => false
  | _ => false

/-- Embeds FailableMutation.mutate.  The caught argument models
cls._meta.caught_exceptions; do_mutate is none when the subclass does
not define a do_mutate method, in which case NotImplementedError is
raised before the try block.  Otherwise the body runs inside a try
whose handlers are, in order: DjangoValidationError, then the
caught_exceptions tuple; any other exception propagates.  The second
component counts invocations of the body. -/
def FailableMutation.mutate (caught : List ExcType)
    (do_mutate : Option (Unit → Except Exc MutationResult)) :
    MutateOutcome × Nat :=
  match do_mutate with
  | none => (MutateOutcome.notImplemented, 0)
  | some body =>
    match body () with
    | Except.ok r => (MutateOutcome.returned r, 1)
    | Except.error e =>
      if e.ty = ExcType.djangoValidationError then
        (MutateOutcome.returned
          { error := some (create_validation_error_output e),
            success := some false }, 1)
      else if e.ty ∈ caught then
        (MutateOutcome.returned
          { error := some (MutationError.executionError e.msg),
            success := some false }, 1)
      else
        (MutateOutcome.raised e, 1)

/-- Embeds fields_for_form, parametric in the external
convert_form_field collaborator.  A field is skipped when only_fields
is non-empty and does not contain the name, or when the name is in
exclude_fields; retained fields keep the declaration order of the
form. -/
def fields_for_form {α β : Type} (convert_form_field : α → β)
    (form_fields : List (String × α))
    (only_fields exclude_fields : List String) : List (String × β) :=
  match form_fields with
  | [] => []
  | (name, field) :: rest =>
    let is_not_in_only := ¬ only_fields.isEmpty = true ∧ name ∉ only_fields
    let is_excluded := name ∈ exclude_fields
    if is_not_in_only ∨ is_excluded then
      fields_for_form convert_form_field rest only_fields exclude_fields
    else
      (name, convert_form_field field) ::
        fields_for_form convert_form_field rest only_fields exclude_fields

/-- The form collaborator as read by FormMutation.mutate: the result of
form.is_valid() and the (name, messages) pairs that form.errors.items()
yields, in field-declaration order. -/
structure Form where
  is_valid : Bool
  errors : List (String × List String)
deriving DecidableEq, Repr

/-- Embeds FormMutation.mutate for an already built form.  On a valid
form the body perform_mutate runs inside a try that catches only
MutationExecutionException; on normal return the success attribute is
defaulted from the error attribute when unset.  On an invalid form the
form errors are mapped to the ValidationErrors variant and the body is
never invoked.  The second component counts invocations of
perform_mutate. -/
def FormMutation.mutate (form : Form)
    (perform_mutate : Unit → Except Exc MutationResult) :
    MutateOutcome × Nat :=
  if form.is_valid then
    match perform_mutate () with
    | Except.ok result =>
      if result.success.isNone then
        (MutateOutcome.returned
          { result with success := some result.error.isNone }, 1)
      else
        (MutateOutcome.returned result, 1)
    | Except.error e =>
      if e.ty = ExcType.mutationExecutionException then
        (MutateOutcome.returned
          { error := some (MutationError.executionError e.msg),
            success := some false }, 1)
      else
        (MutateOutcome.raised e, 1)
  else
    (MutateOutcome.returned
      { error := some (MutationError.validationErrors
          (form.errors.map fun kv => ⟨kv.1, kv.2⟩)),
        success := some false }, 0)

/-- A Python value that can appear under the id key of the raw input
dictionary, with the truthiness Python gives it. -/
inductive Val where
  | vNone
  | vInt (n : Int)
  | vStr (s : String)
deriving DecidableEq, Repr

/-- Python truthiness of a Val: None, 0 and the empty string are
falsy. -/
def Val.truthy : Val → Bool
  | Val.vNone => false
  | Val.vInt n => decide (n ≠ 0)
  | Val.vStr s => decide (s ≠ "")

/-- Models dict.pop with a default of None: returns the value under the
key (if any) together with the dictionary with that key removed. -/
def dict_pop (key : String) (d : List (String × Val)) :
    Option Val × List (String × Val) :=
  match d.lookup key with
  | some v => (some v, d.filter fun kv => kv.1 ≠ key)
  | none => (none, d)

/-- The keyword arguments FormMutation.get_form_kwargs hands to the
form class: the (mutated) input as data, and optionally the fetched
record as the instance being edited. -/
structure FormKwargs where
  data : List (String × Val)
  instanceArg : Option Nat := none
deriving DecidableEq, Repr

/-- Embeds FormMutation.get_form_kwargs, parametric in the external
data store (the default manager, mapping a primary key to a record or
nothing).  The id key is popped from the input; when the popped value
is truthy the record is fetched and a missing record raises an
unhandled lookup exception (modelled as the error case). -/
def FormMutation.get_form_kwargs (store : Val → Option Nat)
    (input : List (String × Val)) : Except Unit FormKwargs :=
  match dict_pop "id" input with
  | (some pk, data) =>
    if pk.truthy then
      match store pk with
      | some inst => Except.ok { data := data, instanceArg := some inst }
      | none => Except.error ()
    else
      Except.ok { data := data }
  | (none, data) => Except.ok { data := data }

/-- C1: when do_mutate raises an exception of the validation kind
(DjangoValidationError), FailableMutation.mutate returns the
ValidationErrors variant (built by create_validation_error_output) with
success false, and the outcome is never the ExecutionError variant,
for every configured allow-list — in particular when the validation
kind is itself a member of caught_exceptions. -/
theorem claim_C1_validation_checked_before_allowlist
    (caught : List ExcType) (e : Exc)
    (h : e.ty = ExcType.djangoValidationError) :
    FailableMutation.mutate caught (some fun _ => Except.error e) =
      (MutateOutcome.returned
        { error := some (create_validation_error_output e),
          success := some false }, 1) ∧
    isExecutionErrorOutcome
      (FailableMutation.mutate caught (some fun _ => Except.error e)).1
      = false := by
  refine ⟨by simp [FailableMutation.mutate, h], ?_⟩
  simp [FailableMutation.mutate, h, isExecutionErrorOutcome,
    create_validation_error_output]

/-- Witness for C1 at a concrete validation exception, with the
validation kind itself a member of the allow-list. -/
theorem claim_C1_witness :
    FailableMutation.mutate [ExcType.djangoValidationError]
        (some fun _ => Except.error
          { ty := ExcType.djangoValidationError, msg := "invalid",
            errorDict := [("name", ["required"])] }) =
      (MutateOutcome.returned
        { error := some (create_validation_error_output
            { ty := ExcType.djangoValidationError, msg := "invalid",
              errorDict := [("name", ["required"])] }),
          success := some false }, 1) ∧
    isExecutionErrorOutcome
      (FailableMutation.mutate [ExcType.djangoValidationError]
        (some fun _ => Except.error
          { ty := ExcType.djangoValidationError, msg := "invalid",
            errorDict := [("name", ["required"])] })).1
      = false :=
  claim_C1_validation_checked_before_allowlist _ _ rfl

/-- C2: an exception whose kind is neither the validation kind nor a
member of caught_exceptions propagates out of FailableMutation.mutate
unchanged — the very same exception value, hence same kind and same
message — after exactly one invocation of the body. -/
theorem claim_C2_uncaught_exception_propagates
    (caught : List ExcType) (e : Exc)
    (hv : e.ty ≠ ExcType.djangoValidationError)
    (hc : e.ty ∉ caught) :
    FailableMutation.mutate caught (some fun _ => Except.error e) =
      (MutateOutcome.raised e, 1) := by
  simp [FailableMutation.mutate, hv, hc]

/-- Witness for C2 at a concrete unlisted exception kind. -/
theorem claim_C2_witness :
    FailableMutation.mutate [ExcType.otherExc 1]
        (some fun _ => Except.error
          { ty := ExcType.otherExc 3, msg := "boom" }) =
      (MutateOutcome.raised
        { ty := ExcType.otherExc 3, msg := "boom" }, 1) :=
  claim_C2_uncaught_exception_propagates _ _ (by decide) (by decide)

/-- C3: an exception whose kind is in caught_exceptions and is not the
validation kind is not propagated: FailableMutation.mutate returns a
result with success false and the ExecutionError variant carrying the
string representation of the exception. -/
theorem claim_C3_allowlisted_exception_becomes_execution_error
    (caught : List ExcType) (e : Exc)
    (hv : e.ty ≠ ExcType.djangoValidationError)
    (hc : e.ty ∈ caught) :
    FailableMutation.mutate caught (some fun _ => Except.error e) =
      (MutateOutcome.returned
        { error := some (MutationError.executionError e.msg),
          success := some false }, 1) := by
  simp [FailableMutation.mutate, hv, hc]

/-- Witness for C3 at a concrete allow-listed exception. -/
theorem claim_C3_witness :
    FailableMutation.mutate [ExcType.otherExc 7]
        (some fun _ => Except.error
          { ty := ExcType.otherExc 7, msg := "oh no!" }) =
      (MutateOutcome.returned
        { error := some (MutationError.executionError "oh no!"),
          success := some false }, 1) :=
  claim_C3_allowlisted_exception_becomes_execution_error _ _
    (by decide) (by decide)

/-- C8: for a subclass with no do_mutate method, FailableMutation.mutate
raises the NotImplementedError configuration error with the body never
run (invocation count zero), for every configured allow-list, so no
exception handler of the dispatch path is ever entered. -/
theorem claim_C8_missing_do_mutate_raises_not_implemented
    (caught : List ExcType) :
    FailableMutation.mutate caught none =
      (MutateOutcome.notImplemented, 0) :=
  rfl

/-- C4: fields_for_form keeps exactly the fields whose name passes the
filter (only_fields empty or containing the name, and name not in
exclude_fields), converts each kept field through the conversion
collaborator, and preserves the declaration order of the form; the two
concrete conjuncts check the spec examples on fields [a, b, c]. -/
theorem claim_C4_fields_for_form_filter_and_order :
    (∀ {α β : Type} (convert : α → β) (fields : List (String × α))
        (only excl : List String),
      fields_for_form convert fields only excl =
        (fields.filter fun nf =>
            (only.isEmpty || decide (nf.1 ∈ only))
              && !(decide (nf.1 ∈ excl))).map
          fun nf => (nf.1, convert nf.2)) ∧
    fields_for_form (fun n => n + 10) [("a", 1), ("b", 2), ("c", 3)]
        ["a", "c"] [] = [("a", 11), ("c", 13)] ∧
    fields_for_form (fun n => n + 10) [("a", 1), ("b", 2), ("c", 3)]
        [] ["b"] = [("a", 11), ("c", 13)] := by
  refine ⟨?_, by decide, by decide⟩
  intro α β convert fields only excl
  induction fields with
  | nil => rfl
  | cons hd tl ih =>
    obtain ⟨name, field⟩ := hd
    by_cases h1 : only.isEmpty = true <;>
      by_cases h2 : name ∈ only <;>
        by_cases h3 : name ∈ excl <;>
          simp [fields_for_form, h1, h2, h3, ih]

/-- C5: when the form is invalid, FormMutation.mutate returns success
false with the ValidationErrors variant holding one field error per
entry of the form error mapping, in the order the form yields them
(field-declaration order per the form collaborator contract), and
perform_mutate is never invoked. -/
theorem claim_C5_invalid_form_short_circuits
    (form : Form) (perform_mutate : Unit → Except Exc MutationResult)
    (h : form.is_valid = false) :
    FormMutation.mutate form perform_mutate =
      (MutateOutcome.returned
        { error := some (MutationError.validationErrors
            (form.errors.map fun kv => ⟨kv.1, kv.2⟩)),
          success := some false }, 0) := by
  simp [FormMutation.mutate, h]

/-- Witness for C5 on a concrete invalid form with two failing
fields. -/
theorem claim_C5_witness :
    FormMutation.mutate
        { is_valid := false,
          errors := [("name", ["required"]), ("age", ["too small"])] }
        (fun _ => Except.ok {}) =
      (MutateOutcome.returned
        { error := some (MutationError.validationErrors
            [⟨"name", ["required"]⟩, ⟨"age", ["too small"]⟩]),
          success := some false }, 0) :=
  claim_C5_invalid_form_short_circuits _ _ rfl

/-- C6 counterexample: a do_mutate body that returns normally without
explicitly setting the success attribute is handed back unchanged by
FailableMutation.mutate, so the caller receives a result whose success
is not true — refuting the claim for the do_mutate path (no
success-defaulting happens there). -/
theorem claim_C6_counterexample :
    FailableMutation.mutate []
        (some fun _ => Except.ok { error := none, success := none }) =
      (MutateOutcome.returned { error := none, success := none }, 1) ∧
    ({ error := none, success := none } : MutationResult).success ≠
      some true := by
  exact ⟨rfl, by simp⟩

/-- C6 amended: on the perform_mutate path (FormMutation.mutate with a
valid form) the handed-back result keeps the body error and carries an
explicit success flag — the value the body set, or, when the body left
success unset, whether the error field is null (so a plain success
gives success true, error null); on the do_mutate path
(FailableMutation.mutate) the body result is handed back entirely
unchanged, with no defaulting. -/
theorem claim_C6_amended_success_defaulting
    (form : Form) (r : MutationResult) (caught : List ExcType)
    (hv : form.is_valid = true) :
    FormMutation.mutate form (fun _ => Except.ok r) =
      (MutateOutcome.returned
        { error := r.error,
          success := some (r.success.getD r.error.isNone) }, 1) ∧
    FailableMutation.mutate caught (some fun _ => Except.ok r) =
      (MutateOutcome.returned r, 1) := by
  obtain ⟨er, su⟩ := r
  refine ⟨?_, by simp [FailableMutation.mutate]⟩
  cases su <;> simp [FormMutation.mutate, hv]

/-- Witness for C6 amended: a body result with error null and success
unset is handed back with success true by the form path and unchanged
by the failable path. -/
theorem claim_C6_amended_witness :
    FormMutation.mutate { is_valid := true, errors := [] }
        (fun _ => Except.ok { error := none, success := none }) =
      (MutateOutcome.returned { error := none, success := some true },
        1) ∧
    FailableMutation.mutate [ExcType.otherExc 0]
        (some fun _ => Except.ok { error := none, success := none }) =
      (MutateOutcome.returned { error := none, success := none }, 1) :=
  claim_C6_amended_success_defaulting
    { is_valid := true, errors := [] }
    { error := none, success := none } [ExcType.otherExc 0] rfl

/-- C7: create_validation_error_output turns each (field, messages)
entry of the validation exception mapping into one field error, in
iteration order, and FailableMutation.mutate wraps the outcome in the
ValidationErrors variant with success false; the closed conjunct checks
the concrete mapping from the name field to the required message. -/
theorem claim_C7_validation_error_output_shape
    (d : List (String × List String)) (m : String)
    (caught : List ExcType) :
    create_validation_error_output
        { ty := ExcType.djangoValidationError, msg := m,
          errorDict := d } =
      MutationError.validationErrors (d.map fun kv => ⟨kv.1, kv.2⟩) ∧
    FailableMutation.mutate caught
        (some fun _ => Except.error
          { ty := ExcType.djangoValidationError, msg := m,
            errorDict := d }) =
      (MutateOutcome.returned
        { error := some (MutationError.validationErrors
            (d.map fun kv => ⟨kv.1, kv.2⟩)),
          success := some false }, 1) ∧
    FailableMutation.mutate []
        (some fun _ => Except.error
          { ty := ExcType.djangoValidationError, msg := "invalid",
            errorDict := [("name", ["required"])] }) =
      (MutateOutcome.returned
        { error := some (MutationError.validationErrors
            [⟨"name", ["required"]⟩]),
          success := some false }, 1) := by
  refine ⟨rfl, ?_, rfl⟩
  simp [FailableMutation.mutate, create_validation_error_output]

/-- C9 counterexample: the raw input contains an id field (value 0)
and the store has no record with that primary key, yet get_form_kwargs
performs no lookup and succeeds with no instance — the claim predicts
an unhandled lookup exception here.  The id gate is Python truthiness,
not presence. -/
theorem claim_C9_counterexample :
    FormMutation.get_form_kwargs (fun _ => none)
        [("id", Val.vInt 0)] =
      Except.ok { data := [], instanceArg := none } :=
  rfl

/-- C9 amended: the record lookup happens exactly when the popped id
value is truthy: a truthy id with no matching record raises the
unhandled lookup exception; a truthy id with a matching record passes
that record as the instance being edited; a falsy id value, or an
absent id field, causes no lookup and no instance.  In every case the
data handed to the form is the input with the id entry popped. -/
theorem claim_C9_amended_truthy_id_lookup
    (store store2 : Val → Option Nat) (inst : Nat)
    (input inputF input2 : List (String × Val))
    (pk : Val) (data : List (String × Val))
    (hpop : dict_pop "id" input = (some pk, data))
    (htr : pk.truthy = true)
    (hmiss : store pk = none)
    (hhit : store2 pk = some inst)
    (pkF : Val) (dataF : List (String × Val))
    (hpopF : dict_pop "id" inputF = (some pkF, dataF))
    (htrF : pkF.truthy = false)
    (data2 : List (String × Val))
    (hpop2 : dict_pop "id" input2 = (none, data2)) :
    FormMutation.get_form_kwargs store input = Except.error () ∧
    FormMutation.get_form_kwargs store2 input =
      Except.ok { data := data, instanceArg := some inst } ∧
    FormMutation.get_form_kwargs store inputF =
      Except.ok { data := dataF, instanceArg := none } ∧
    FormMutation.get_form_kwargs store input2 =
      Except.ok { data := data2, instanceArg := none } := by
  refine ⟨?_, ?_, ?_, ?_⟩ <;>
    simp [FormMutation.get_form_kwargs, hpop, hpopF, hpop2, htr, htrF,
      hmiss, hhit]

/-- Witness for C9 amended on concrete inputs: a truthy id of 5 with an
empty store and with a store holding record 42, a falsy id of 0, and an
input with no id field. -/
theorem claim_C9_amended_witness :
    FormMutation.get_form_kwargs (fun _ => none)
        [("id", Val.vInt 5), ("name", Val.vStr "x")] =
      Except.error () ∧
    FormMutation.get_form_kwargs (fun _ => some 42)
        [("id", Val.vInt 5), ("name", Val.vStr "x")] =
      Except.ok { data := [("name", Val.vStr "x")],
                  instanceArg := some 42 } ∧
    FormMutation.get_form_kwargs (fun _ => none)
        [("id", Val.vInt 0), ("name", Val.vStr "x")] =
      Except.ok { data := [("name", Val.vStr "x")],
                  instanceArg := none } ∧
    FormMutation.get_form_kwargs (fun _ => none)
        [("name", Val.vStr "x")] =
      Except.ok { data := [("name", Val.vStr "x")],
                  instanceArg := none } :=
  claim_C9_amended_truthy_id_lookup
    (fun _ => none) (fun _ => some 42) 42
    [("id", Val.vInt 5), ("name", Val.vStr "x")]
    [("id", Val.vInt 0), ("name", Val.vStr "x")]
    [("name", Val.vStr "x")]
    (Val.vInt 5) [("name", Val.vStr "x")]
    (by decide) (by decide) rfl rfl
    (Val.vInt 0) [("name", Val.vStr "x")]
    (by decide) (by decide)
    [("name", Val.vStr "x")] (by decide)

/-- C10: on the FormMutation.mutate path only the dedicated
MutationExecutionException is converted into the ExecutionError result;
a validation-kind exception raised by perform_mutate propagates uncaught
rather than becoming a ValidationErrors result, and an exception kind
that is in caught_exceptions also propagates — the allow-list is not
consulted here, whereas FailableMutation.mutate would convert that same
exception into an ExecutionError result. -/
theorem claim_C10_form_mutation_catches_only_execution_exception
    (form : Form) (caught : List ExcType) (eVal eExec eOther : Exc)
    (hv : form.is_valid = true)
    (hval : eVal.ty = ExcType.djangoValidationError)
    (hexec : eExec.ty = ExcType.mutationExecutionException)
    (hOtherNe : eOther.ty ≠ ExcType.mutationExecutionException)
    (hOtherNv : eOther.ty ≠ ExcType.djangoValidationError)
    (hOtherMem : eOther.ty ∈ caught) :
    FormMutation.mutate form (fun _ => Except.error eVal) =
      (MutateOutcome.raised eVal, 1) ∧
    FormMutation.mutate form (fun _ => Except.error eExec) =
      (MutateOutcome.returned
        { error := some (MutationError.executionError eExec.msg),
          success := some false }, 1) ∧
    FormMutation.mutate form (fun _ => Except.error eOther) =
      (MutateOutcome.raised eOther, 1) ∧
    FailableMutation.mutate caught
        (some fun _ => Except.error eOther) =
      (MutateOutcome.returned
        { error := some (MutationError.executionError eOther.msg),
          success := some false }, 1) := by
  refine ⟨?_, ?_, ?_, ?_⟩
  · simp [FormMutation.mutate, hv, hval]
  · simp [FormMutation.mutate, hv, hexec]
  · simp [FormMutation.mutate, hv, hOtherNe]
  · simp [FailableMutation.mutate, hOtherNv, hOtherMem]

/-- Witness for C10 at a valid form, a validation exception, a
MutationExecutionException, and an allow-listed ordinary exception. -/
theorem claim_C10_witness :
    FormMutation.mutate { is_valid := true, errors := [] }
        (fun _ => Except.error
          { ty := ExcType.djangoValidationError, msg := "v",
            errorDict := [("f", ["m"])] }) =
      (MutateOutcome.raised
        { ty := ExcType.djangoValidationError, msg := "v",
          errorDict := [("f", ["m"])] }, 1) ∧
    FormMutation.mutate { is_valid := true, errors := [] }
        (fun _ => Except.error
          { ty := ExcType.mutationExecutionException, msg := "boom" }) =
      (MutateOutcome.returned
        { error := some (MutationError.executionError "boom"),
          success := some false }, 1) ∧
    FormMutation.mutate { is_valid := true, errors := [] }
        (fun _ => Except.error
          { ty := ExcType.otherExc 5, msg := "oops" }) =
      (MutateOutcome.raised
        { ty := ExcType.otherExc 5, msg := "oops" }, 1) ∧
    FailableMutation.mutate [ExcType.otherExc 5]
        (some fun _ => Except.error
          { ty := ExcType.otherExc 5, msg := "oops" }) =
      (MutateOutcome.returned
        { error := some (MutationError.executionError "oops"),
          success := some false }, 1) :=
  claim_C10_form_mutation_catches_only_execution_exception
    { is_valid := true, errors := [] } [ExcType.otherExc 5]
    { ty := ExcType.djangoValidationError, msg := "v",
      errorDict := [("f", ["m"])] }
    { ty := ExcType.mutationExecutionException, msg := "boom" }
    { ty := ExcType.otherExc 5, msg := "oops" }
    rfl rfl rfl (by decide) (by decide) (by decide)

end SeriousDjangoGraphene
